import Mathlib

/-!
Shallow embedding of `piston/authentication.py` (django-piston).

The Python module implements two pluggable request-authentication handlers
(`HttpBasicAuthentication`, `OAuthAuthentication`) plus the three OAuth 1.0a
protocol endpoints (`oauth_request_token`, `oauth_user_auth`,
`oauth_access_token`).  Pure string manipulation (header splitting, base64
decoding, substring membership) is embedded directly; Django framework
objects are reduced to the fields the module reads or writes; the external
`oauth` library and the `store.DataStore` (both outside the repository
source tree) appear either as explicit function parameters or as
definitions modelled from the specification, each marked as such.

Python exceptions are made explicit: a function that can raise returns
`Except PyExn _` (or `PyOutcome _` when the module distinguishes
`oauth.OAuthError` from other exceptions in its `except` clauses).
-/

namespace Piston

/-! ## Python string semantics helpers -/

/-- ASCII lower-casing of one character, as Python `str.lower` does for
the ASCII range (the only range exercised by the module). -/
def lowerChar (c : Char) : Char :=
  if 'A' ≤ c ∧ c ≤ 'Z' then Char.ofNat (c.toNat + 32) else c

/-- Python `str.lower` on ASCII strings. -/
def pyLower (s : String) : String :=
  String.mk (s.data.map lowerChar)

/-- Characters removed by Python `str.strip` with no argument. -/
def isSpaceCh (c : Char) : Bool :=
  c == ' ' || c == '\t' || c == '\n' || c == '\r' || c == '\x0b' || c == '\x0c'

/-- Python `str.strip()`: drop leading and trailing whitespace. -/
def pyStrip (s : String) : String :=
  String.mk (((s.data.dropWhile isSpaceCh).reverse.dropWhile isSpaceCh).reverse)

/-- Split a character list at the first occurrence of `c`.
`none` when `c` does not occur. -/
def splitOnceL (c : Char) : List Char → Option (List Char × List Char)
  | [] => none
  | x :: xs =>
    if x = c then some ([], xs)
    else
      match splitOnceL c xs with
      | none => none
      | some (a, b) => some (x :: a, b)

/-- Python `s.split(sep, 1)` unpacked into a pair: `some (before, after)`
when `sep` occurs in `s`, and `none` when it does not (in which case the
Python tuple unpacking `(a, b) = s.split(sep, 1)` raises `ValueError`). -/
def pySplitOnce (s : String) (c : Char) : Option (String × String) :=
  (splitOnceL c s.data).map (fun p => (String.mk p.1, String.mk p.2))

/-- Whether `p` is a prefix of `l` (character lists). -/
def startsWithL : List Char → List Char → Bool
  | _, [] => true
  | [], _ :: _ => false
  | c :: cs, p :: ps => c == p && startsWithL cs ps

/-- Python substring membership `p in hay` over character lists:
`occursIn hay p` is true when `p` occurs contiguously inside `hay`. -/
def occursIn : List Char → List Char → Bool
  | _, [] => true
  | [], _ :: _ => false
  | c :: cs, p :: ps => startsWithL (c :: cs) (p :: ps) || occursIn cs (p :: ps)

/-- Decimal digit value of a character. -/
def digitVal (c : Char) : Option Nat :=
  if '0' ≤ c ∧ c ≤ '9' then some (c.toNat - '0'.toNat) else none

/-- Accumulating decimal parse. -/
def digitsToNatAux : Nat → List Char → Option Nat
  | acc, [] => some acc
  | acc, c :: cs =>
    match digitVal c with
    | none => none
    | some d => digitsToNatAux (acc * 10 + d) cs

/-- Parse a non-empty all-digit character list as a natural number. -/
def digitsToNat : List Char → Option Nat
  | [] => none
  | cs => digitsToNatAux 0 cs

/-- Python `int(s)` restricted to the shapes the module feeds it
(an optional minus sign followed by decimal digits); `none` models the
`ValueError` Python raises on anything else. -/
def pyInt (s : String) : Option Int :=
  match s.data with
  | '-' :: ds => (digitsToNat ds).map (fun n => -(n : Int))
  | ds => (digitsToNat ds).map (fun n => (n : Int))

/-! ## Base64 decoding (Python 2 `str.decode('base64')`) -/

/-- Index of a character in the standard base64 alphabet. -/
def b64Index (c : Char) : Option Nat :=
  if 'A' ≤ c ∧ c ≤ 'Z' then some (c.toNat - 'A'.toNat)
  else if 'a' ≤ c ∧ c ≤ 'z' then some (c.toNat - 'a'.toNat + 26)
  else if '0' ≤ c ∧ c ≤ '9' then some (c.toNat - '0'.toNat + 52)
  else if c = '+' then some 62
  else if c = '/' then some 63
  else none

/-- Decode groups of four base64 characters (with `=` padding allowed in
the final group) into bytes, rendered as characters of that code point,
matching the byte-string result of Python 2 decoding. `none` models the
`binascii.Error` raised on incorrect padding or misplaced `=`. -/
def b64DecodeChars : List Char → Option (List Char)
  | [] => some []
  | a :: b :: '=' :: '=' :: [] => do
    let x ← b64Index a
    let y ← b64Index b
    some [Char.ofNat ((x * 64 + y) / 16)]
  | a :: b :: c :: '=' :: [] => do
    let x ← b64Index a
    let y ← b64Index b
    let z ← b64Index c
    let n := x * 4096 + y * 64 + z
    some [Char.ofNat (n / 1024), Char.ofNat (n / 4 % 256)]
  | a :: b :: c :: d :: rest => do
    let x ← b64Index a
    let y ← b64Index b
    let z ← b64Index c
    let w ← b64Index d
    let tl ← b64DecodeChars rest
    let n := x * 262144 + y * 4096 + z * 64 + w
    some (Char.ofNat (n / 65536) :: Char.ofNat (n / 256 % 256) :: Char.ofNat (n % 256) :: tl)
  | _ => none

/-- Python 2 `s.decode('base64')` (`binascii.a2b_base64`): characters
outside the base64 alphabet are discarded, then the remainder is decoded
in four-character groups; `none` where Python raises `binascii.Error`. -/
def pyB64Decode (s : String) : Option String :=
  let kept := s.data.filter (fun c => (b64Index c).isSome || c == '=')
  (b64DecodeChars kept).map String.mk

/-! ## Data model: Django objects reduced to the fields the module uses -/

/-- A Django `User`, reduced to its primary key. -/
structure DjUser where
  id : Nat
  deriving DecidableEq, Repr

/-- Possible values of the `request.user` attribute over the lifetime of
the module's code: unset, `AnonymousUser()`, Python `None`
(a token whose `user` foreign key is null), or a real `User`. -/
inductive ReqUser where
  | missing
  | anonymous
  | pyNone
  | authUser : DjUser → ReqUser
  deriving DecidableEq, Repr

/-- The slice of a Django request the module reads or writes:
`request.META['HTTP_AUTHORIZATION']`, the combined GET+POST dictionary
`request.REQUEST`, `request.method`, `request.session['oauth']`,
`request.POST['authorize_access']`, `request.user` and
`request.throttle_extra`. -/
structure Request where
  httpAuthorization : Option String
  requestParams : List (String × String)
  method : String
  sessionOauth : Option String
  postAuthorizeAccess : Option String
  user : ReqUser
  throttleExtra : Option Nat
  deriving DecidableEq, Repr

/-- A Django `HttpResponse`: body, status code and headers. -/
structure HttpResponse where
  content : String
  statusCode : Nat
  headers : List (String × String)
  deriving DecidableEq, Repr

/-- Non-`OAuthError` Python exceptions that the module can let escape. -/
inductive PyExn where
  | valueError
  | binasciiError
  | attributeError
  deriving DecidableEq, Repr

/-- Modelled from the spec: the external oauth library's `OAuthError`
(the root of the §7 error taxonomy), carrying a message string that
`send_oauth_error` reads as `err.message`. -/
structure OAuthError where
  message : String
  deriving DecidableEq, Repr

/-- Outcome of running a piece of Python code whose callers distinguish
`oauth.OAuthError` from other exceptions. -/
inductive PyOutcome (α : Type) where
  | ok : α → PyOutcome α
  | oauthError : OAuthError → PyOutcome α
  | exn : PyExn → PyOutcome α
  deriving DecidableEq, Repr

/-! ## HttpBasicAuthentication -/

/-- `HttpBasicAuthentication`: a pluggable credential-check function
(returning a `User` on success and a falsy value — here `none` — on
failure, as `django_auth` does) and a realm. -/
structure HttpBasicAuthentication where
  auth_func : String → String → Option DjUser
  realm : String

/-- The constructor defaults of `HttpBasicAuthentication.__init__`:
`realm` defaults to `'API'` (the default `auth_func`, `django_auth`,
is kept abstract since it queries Django's user store). -/
def HttpBasicAuthentication.withDefaultRealm
    (f : String → String → Option DjUser) : HttpBasicAuthentication :=
  ⟨f, "API"⟩

/-- `HttpBasicAuthentication.is_authenticated`.  Mirrors the Python body:
absent or empty header returns `False`; `(authmeth, auth) =
auth_string.split(" ", 1)` raises `ValueError` when there is no space;
a non-`basic` scheme returns `False`; `auth.strip().decode('base64')`
raises `binascii.Error` on undecodable input; `(username, password) =
auth.split(':', 1)` raises `ValueError` when there is no colon; otherwise
`request.user` is set to the checked user or `AnonymousUser()` and the
method returns whether that value is a real user. -/
def HttpBasicAuthentication.is_authenticated (self : HttpBasicAuthentication)
    (request : Request) : Except PyExn (Request × Bool) :=
  match request.httpAuthorization with
  | none => .ok (request, false)
  | some auth_string =>
    if auth_string = "" then .ok (request, false)
    else
      match pySplitOnce auth_string ' ' with
      | none => .error .valueError
      | some (authmeth, auth) =>
        if pyLower authmeth = "basic" then
          match pyB64Decode (pyStrip auth) with
          | none => .error .binasciiError
          | some decoded =>
            match pySplitOnce decoded ':' with
            | none => .error .valueError
            | some (username, password) =>
              let checked := self.auth_func username password
              let newUser : ReqUser :=
                match checked with
                | some u => .authUser u
                | none => .anonymous
              .ok ({ request with user := newUser },
                   match checked with
                   | some _ => true
                   | none => false)
        else .ok (request, false)

/-- `HttpBasicAuthentication.challenge`: a 401 response with body
`"Authorization Required"` and a `WWW-Authenticate` header naming the
configured realm. -/
def HttpBasicAuthentication.challenge (self : HttpBasicAuthentication) :
    HttpResponse :=
  { content := "Authorization Required"
    statusCode := 401
    headers := [("WWW-Authenticate", "Basic realm=\"" ++ self.realm ++ "\"")] }

/-! ## Modelled pieces of the external oauth library

The module imports Leah Culver's `oauth` library and the repository's
`store.DataStore`, neither of which is under the source tree provided.
The definitions in this section are therefore modelled from the
specification (§3, §4.2, §4.4, §6) and are marked as such; everything the
claims decide about the repository's own code treats these only through
their interfaces. -/

/-- Modelled from the spec: a registered Consumer (§3) — unique key,
shared secret, and the database id that `is_authenticated` exposes as
`token.consumer.id`. -/
structure Consumer where
  id : Nat
  key : String
  secret : String
  deriving DecidableEq, Repr

/-- Modelled from the spec: the token authorization states (§4.4). -/
inductive TokenState where
  | unauthorized
  | authorized
  | consumed
  deriving DecidableEq, Repr

/-- Modelled from the spec: an OAuth Token (§3) — key, secret, owning
consumer, authorization state, and the user bound once authorized. -/
structure Token where
  key : String
  secret : String
  consumer : Consumer
  state : TokenState
  user : Option DjUser
  deriving DecidableEq, Repr

/-- The Python value `token.user` assigned onto `request.user`:
the bound `User`, or `None` when the token has no user. -/
def tokenUser (t : Token) : ReqUser :=
  match t.user with
  | some u => .authUser u
  | none => .pyNone

/-- Modelled from the spec: a normalized `OAuthRequest` (§3, §4.1) —
method, base URL and the merged OAuth parameter set. -/
structure OAuthRequestM where
  http_method : String
  http_url : String
  parameters : List (String × String)
  deriving DecidableEq, Repr

/-- First value bound to a parameter name, if any. -/
def OAuthRequestM.getParam (r : OAuthRequestM) (k : String) : Option String :=
  (r.parameters.find? (fun kv => kv.1 == k)).map (fun kv => kv.2)

/-- Hexadecimal digit characters used by percent-encoding. -/
def hexDigit (n : Nat) : Char :=
  if n < 10 then Char.ofNat ('0'.toNat + n) else Char.ofNat ('A'.toNat + (n - 10))

/-- RFC 3986 unreserved characters, which percent-encoding passes through. -/
def isUnreserved (c : Char) : Bool :=
  (('A' ≤ c ∧ c ≤ 'Z') ∨ ('a' ≤ c ∧ c ≤ 'z') ∨ ('0' ≤ c ∧ c ≤ '9')
    ∨ c = '-' ∨ c = '.' ∨ c = '_' ∨ c = '~' : Bool)

/-- Modelled from the spec: canonical percent-encoding (§3, §4.2) over
the ASCII range the module exercises. -/
def percent_encode (s : String) : String :=
  String.mk ((s.data.map (fun c =>
    if isUnreserved c then [c]
    else ['%', hexDigit (c.toNat / 16 % 16), hexDigit (c.toNat % 16)])).flatten)

/-- Modelled from the spec: `Token.to_string` of the external oauth
library — the urlencoded `oauth_token=...&oauth_token_secret=...` body
(§6) returned by the request-token and access-token endpoints. -/
def Token.to_string (t : Token) : String :=
  "oauth_token=" ++ percent_encode t.key
    ++ "&oauth_token_secret=" ++ percent_encode t.secret

/-- Modelled from the spec: `Token.to_string(only_key=True)` — only the
`oauth_token` pair, used when building the callback redirect. -/
def Token.to_string_only_key (t : Token) : String :=
  "oauth_token=" ++ percent_encode t.key

/-- Modelled from the spec: `oauth.build_authenticate_header(realm)` —
the `WWW-Authenticate` header appropriate to the OAuth scheme (§6). -/
def build_authenticate_header (realm : String) : List (String × String) :=
  [("WWW-Authenticate", "OAuth realm=\"" ++ realm ++ "\"")]

/-- Modelled from the spec: the CredentialStore state behind the
oauth server (§4.3) — registered consumers, the recorded nonce tuples
`(consumer key, token key, timestamp, nonce)`, and a counter from which
fresh token keys/secrets are drawn. -/
structure Store where
  consumers : List Consumer
  nonces : List (String × String × String × String)
  nextTokenId : Nat
  deriving DecidableEq, Repr

/-- Modelled from the spec: the external oauth library's
`OAuthServer.fetch_request_token` (§4.4 operation 1).  Checks run in the
spec's order — consumer existence, timestamp skew window, nonce
freshness, signature-method support, signature correctness — and on
success record the nonce and issue a fresh token in state UNAUTHORIZED.
The PLAINTEXT signature is the literal
`percent_encode(consumer_secret) + "&"` (empty token secret, §4.2);
HMAC-SHA1 signing is beyond the modelled scope and is abstracted as the
`hmacSign` argument. -/
def fetch_request_token (hmacSign : OAuthRequestM → String → String)
    (store : Store) (now skew : Nat) (oreq : OAuthRequestM) :
    Except OAuthError (Token × Store) :=
  match (oreq.getParam "oauth_consumer_key").bind
      (fun k => store.consumers.find? (fun c => c.key == k)) with
  | none => .error ⟨"Invalid consumer."⟩
  | some consumer =>
    match (oreq.getParam "oauth_timestamp").bind (fun s => digitsToNat s.data) with
    | none => .error ⟨"Invalid timestamp."⟩
    | some ts =>
      if now > ts + skew ∨ ts > now + skew then .error ⟨"Expired timestamp."⟩
      else
        match oreq.getParam "oauth_nonce" with
        | none => .error ⟨"Missing nonce."⟩
        | some nonce =>
          let tsStr := (oreq.getParam "oauth_timestamp").getD ""
          if store.nonces.contains (consumer.key, "", tsStr, nonce) then
            .error ⟨"Nonce already used."⟩
          else
            match oreq.getParam "oauth_signature_method" with
            | none => .error ⟨"Missing signature method."⟩
            | some m =>
              if m ≠ "PLAINTEXT" ∧ m ≠ "HMAC-SHA1" then
                .error ⟨"Unsupported signature method."⟩
              else
                let sig := (oreq.getParam "oauth_signature").getD ""
                let expected :=
                  if m = "PLAINTEXT" then percent_encode consumer.secret ++ "&"
                  else hmacSign oreq consumer.secret
                if sig ≠ expected then .error ⟨"Invalid signature."⟩
                else
                  let n := store.nextTokenId
                  let token : Token :=
                    ⟨"requesttoken" ++ Nat.repr n, "requestsecret" ++ Nat.repr n,
                     consumer, .unauthorized, none⟩
                  .ok (token,
                       { store with
                           nonces := (consumer.key, "", tsStr, nonce) :: store.nonces
                           nextTokenId := n + 1 })

/-! ## The module's own OAuth endpoint code

`initialize_server_request` builds the oauth server and the parsed
`OAuthRequest` from the Django request; the parse
(`oauth.OAuthRequest.from_request`) lives in the external library, so
each endpoint below takes its result — `Option OAuthRequestM`, `none`
when parsing produced nothing (in which case `oauth_server` is `None`
too) — together with the server operation it invokes, as parameters. -/

/-- `send_oauth_error`: a 401 response whose body is the error's message
and whose headers come from `oauth.build_authenticate_header` with realm
`'OAuth'`. -/
def send_oauth_error (err : OAuthError) : HttpResponse :=
  { content := err.message
    statusCode := 401
    headers := build_authenticate_header "OAuth" }

/-- `INVALID_PARAMS_RESPONSE`: the module-level pre-built response for
unparseable requests. -/
def INVALID_PARAMS_RESPONSE : HttpResponse :=
  send_oauth_error ⟨"Invalid request parameters."⟩

/-- `oauth_request_token`: returns `INVALID_PARAMS_RESPONSE` when the
request did not parse, the issued token's string form in a 200 response
on success, and `send_oauth_error err` when `fetch_request_token` raises
an `OAuthError`. -/
def oauth_request_token (fetch : OAuthRequestM → Except OAuthError Token)
    (oauth_request : Option OAuthRequestM) : HttpResponse :=
  match oauth_request with
  | none => INVALID_PARAMS_RESPONSE
  | some oreq =>
    match fetch oreq with
    | .ok token => { content := token.to_string, statusCode := 200, headers := [] }
    | .error err => send_oauth_error err

/-- `oauth_access_token`: same structure as `oauth_request_token`, with
`fetch_access_token` as the server operation. -/
def oauth_access_token (fetch : OAuthRequestM → Except OAuthError Token)
    (oauth_request : Option OAuthRequestM) : HttpResponse :=
  match oauth_request with
  | none => INVALID_PARAMS_RESPONSE
  | some oreq =>
    match fetch oreq with
    | .ok token => { content := token.to_string, statusCode := 200, headers := [] }
    | .error err => send_oauth_error err

/-- The collaborators `oauth_user_auth` reaches through: the oauth
server operations it invokes, the `get_callback` lookup (whose failures
are swallowed by a bare `except`), the configured authorization view,
the optional `settings.OAUTH_CALLBACK_VIEW` (reading it when absent
raises `AttributeError`), and the request's normalized parameters. -/
structure UserAuthEnv where
  fetch : OAuthRequestM → Except OAuthError Token
  get_callback : OAuthRequestM → Except Unit String
  authorize : Token → ReqUser → Except OAuthError Token
  auth_view : Request → Token → Option String → String → HttpResponse
  callback_view : Option (Request → Token → HttpResponse)
  normalized_params : OAuthRequestM → String

/-- `oauth_user_auth` (the `@login_required` framework wrapper is outside
the module's code).  Mirrors the Python control flow: unparsed request →
`INVALID_PARAMS_RESPONSE`; `fetch_request_token` error → 401; GET stores
the token key in the session and delegates to the authorization view;
POST with a matching session token clears it and either authorizes (on
`authorize_access`) or builds a denial query string, then redirects to
the callback — falling back to `settings.OAUTH_CALLBACK_VIEW` when the
callback is falsy; POST with a mismatched session token returns the
plain 200 response `'Action not allowed.'`; any other method falls off
the function body (Python returns `None`).  `int(...)` failures and a
missing `OAUTH_CALLBACK_VIEW` setting escape as non-OAuth exceptions. -/
def oauth_user_auth (env : UserAuthEnv) (oauth_request : Option OAuthRequestM)
    (request : Request) : Except PyExn (Request × Option HttpResponse) :=
  match oauth_request with
  | none => .ok (request, some INVALID_PARAMS_RESPONSE)
  | some oreq =>
    match env.fetch oreq with
    | .error err => .ok (request, some (send_oauth_error err))
    | .ok token =>
      let callback : Option String :=
        match env.get_callback oreq with
        | .ok cb => some cb
        | .error _ => none
      if request.method = "GET" then
        let request := { request with sessionOauth := some token.key }
        .ok (request,
             some (env.auth_view request token callback (env.normalized_params oreq)))
      else if request.method = "POST" then
        if request.sessionOauth.getD "" = token.key then
          let request := { request with sessionOauth := some "" }
          match pyInt (request.postAuthorizeAccess.getD "0") with
          | none => .error .valueError
          | some n =>
            if n ≠ 0 then
              match env.authorize token request.user with
              | .error err => .ok (request, some (send_oauth_error err))
              | .ok token2 =>
                let args := "?" ++ token2.to_string_only_key
                if callback.getD "" = "" then
                  match env.callback_view with
                  | none => .error .attributeError
                  | some view => .ok (request, some (view request token2))
                else
                  .ok (request,
                       some { content := ""
                              statusCode := 302
                              headers := [("Location", callback.getD "" ++ args)] })
            else
              let args := "?error=Access not granted by user."
              if callback.getD "" = "" then
                match env.callback_view with
                | none => .error .attributeError
                | some view => .ok (request, some (view request token))
              else
                .ok (request,
                     some { content := ""
                            statusCode := 302
                            headers := [("Location", callback.getD "" ++ args)] })
        else
          .ok (request, some { content := "Action not allowed.", statusCode := 200, headers := [] })
      else .ok (request, none)

/-! ## OAuthAuthentication -/

/-- The six required parameter names built by `is_valid_request`:
`'oauth_' + s` for each suffix in the module's list, in its order. -/
def must_have : List String :=
  ["oauth_consumer_key", "oauth_token", "oauth_signature",
   "oauth_signature_method", "oauth_timestamp", "oauth_nonce"]

/-- `OAuthAuthentication.is_valid_request` (a static method; the
instance's realm plays no part).  `is_in` is applied to the raw
`HTTP_AUTHORIZATION` header string — Python `in` on a string is
substring membership — and to `request.REQUEST` — Python `in` on the
combined GET+POST dictionary is key membership; the two sources are
tested separately and never merged. -/
def OAuthAuthentication.is_valid_request (request : Request) : Bool :=
  let auth_params := request.httpAuthorization.getD ""
  (must_have.all (fun p => occursIn auth_params.data p.data))
    || (must_have.all (fun p => request.requestParams.any (fun kv => kv.1 == p)))

/-- `OAuthAuthentication.validate_token(request, check_timestamp=True,
check_nonce=True)`: builds the server and parsed request via
`initialize_server_request` (the parse is the `from_request` parameter;
when it yields nothing the server is `None` and the attribute access
raises) and returns `oauth_server.verify_request(oauth_request)` — the
`verify` parameter.  The body never reads `check_timestamp` or
`check_nonce`. -/
def OAuthAuthentication.validate_token
    (from_request : Request → Option OAuthRequestM)
    (verify : OAuthRequestM →
      PyOutcome (Option Consumer × Option Token × List (String × String)))
    (request : Request) (check_timestamp check_nonce : Bool) :
    PyOutcome (Option Consumer × Option Token × List (String × String)) :=
  match from_request request with
  | none => .exn .attributeError
  | some oreq => verify oreq

/-- `OAuthAuthentication.is_authenticated`: pre-checks
`is_valid_request`; calls `validate_token` with its default flags,
catching `oauth.OAuthError` (logged via `print send_oauth_error(err)`)
into a `False` return; on a truthy consumer and token binds
`request.user = token.user` and `request.throttle_extra =
token.consumer.id` and returns `True`; otherwise returns `False`. -/
def OAuthAuthentication.is_authenticated
    (from_request : Request → Option OAuthRequestM)
    (verify : OAuthRequestM →
      PyOutcome (Option Consumer × Option Token × List (String × String)))
    (request : Request) : PyOutcome (Request × Bool) :=
  if OAuthAuthentication.is_valid_request request then
    match OAuthAuthentication.validate_token from_request verify request true true with
    | .oauthError _ => .ok (request, false)
    | .exn e => .exn e
    | .ok (consumer?, token?, _params) =>
      match consumer?, token? with
      | some _, some token =>
        .ok ({ request with
                 user := tokenUser token
                 throttleExtra := some token.consumer.id }, true)
      | some _, none => .ok (request, false)
      | none, _ => .ok (request, false)
  else .ok (request, false)

/-! ## Concrete fixtures used by witnesses and counterexamples -/

/-- A request with no `Authorization` header. -/
def reqNoAuth : Request := ⟨none, [], "GET", none, none, .missing, none⟩

/-- A request using a non-Basic scheme. -/
def reqOtherScheme : Request := ⟨some "Digest abc", [], "GET", none, none, .missing, none⟩

/-- A request whose `Authorization` value has no space separator. -/
def reqNoSpace : Request := ⟨some "Basic", [], "GET", none, none, .missing, none⟩

/-- A request whose base64 payload has incorrect padding. -/
def reqBadPad : Request := ⟨some "Basic YQ", [], "GET", none, none, .missing, none⟩

/-- A request whose base64 payload decodes to `"abc"`, which has no colon. -/
def reqNoColon : Request := ⟨some "Basic YWJj", [], "GET", none, none, .missing, none⟩

/-- A request carrying base64 of `"alice:wrong"` — parseable credentials
that the check function will reject. -/
def reqBadCreds : Request :=
  ⟨some "Basic YWxpY2U6d3Jvbmc=", [], "GET", none, none, .missing, none⟩

/-- A request whose `Authorization` header carries all six required OAuth
parameter names. -/
def reqAllHeader : Request :=
  ⟨some ("OAuth realm=\"API\", oauth_consumer_key=\"ck\", oauth_token=\"tk\", "
      ++ "oauth_signature_method=\"PLAINTEXT\", oauth_signature=\"sig\", "
      ++ "oauth_timestamp=\"1\", oauth_nonce=\"n\""),
   [], "GET", none, none, .missing, none⟩

/-- A request supplying three of the required names in the header and the
other three in the combined GET/POST parameters. -/
def reqSplitSources : Request :=
  ⟨some "OAuth oauth_consumer_key=\"ck\", oauth_token=\"tk\", oauth_timestamp=\"1\"",
   [("oauth_signature", "s"), ("oauth_signature_method", "PLAINTEXT"),
    ("oauth_nonce", "n")],
   "GET", none, none, .missing, none⟩

/-- A parsed OAuth request with no parameters, used where only the
endpoint's control flow matters. -/
def oreqEx : OAuthRequestM := ⟨"GET", "http://example.com/api/", []⟩

/-- A request token held by the user-authorization fixtures. -/
def tokC3 : Token := ⟨"tk", "ts", ⟨5, "ck", "cs"⟩, .unauthorized, none⟩

/-- User-authorization collaborators where the token fetch succeeds and
no callback is configured. -/
def envMismatch : UserAuthEnv :=
  ⟨fun _ => .ok tokC3, fun _ => .error (), fun t _ => .ok t,
   fun _ _ _ _ => ⟨"view", 200, []⟩, none, fun _ => ""⟩

/-- A POST whose session token does not match the request token. -/
def reqMismatch : Request := ⟨none, [], "POST", some "other", some "1", .anonymous, none⟩

/-- User-authorization collaborators with a consumer callback URL. -/
def envDeny : UserAuthEnv :=
  ⟨fun _ => .ok tokC3, fun _ => .ok "http://client.example.com/cb", fun t _ => .ok t,
   fun _ _ _ _ => ⟨"view", 200, []⟩, none, fun _ => ""⟩

/-- A POST with a matching session token on which the user denies access
(`authorize_access` is `'0'`). -/
def reqDeny : Request := ⟨none, [], "POST", some "tk", some "0", .anonymous, none⟩

/-- User-authorization collaborators whose token fetch raises. -/
def envFetchErr : UserAuthEnv :=
  ⟨fun _ => .error ⟨"Invalid consumer."⟩, fun _ => .error (), fun t _ => .ok t,
   fun _ _ _ _ => ⟨"view", 200, []⟩, none, fun _ => ""⟩

/-- User-authorization collaborators whose `authorize_token` raises. -/
def envAuthErr : UserAuthEnv :=
  ⟨fun _ => .ok tokC3, fun _ => .error (), fun _ _ => .error ⟨"Token not authorized."⟩,
   fun _ _ _ _ => ⟨"view", 200, []⟩, none, fun _ => ""⟩

/-- A POST with a matching session token that grants access. -/
def reqGrant : Request := ⟨none, [], "POST", some "tk", some "1", .anonymous, none⟩

/-- A registered consumer bound to a verified access token. -/
def consumerEx : Consumer := ⟨9, "ck", "cs"⟩

/-- A verified access token bound to user 42. -/
def tokAcc : Token := ⟨"atk", "ats", consumerEx, .authorized, some ⟨42⟩⟩

/-- The spec's request-token scenario store: consumer `ck1` with secret
`cs1`, no recorded nonces. -/
def storeEx : Store := ⟨[⟨1, "ck1", "cs1"⟩], [], 0⟩

/-- The spec's request-token scenario request: PLAINTEXT signature
`"cs1&"`, current timestamp, fresh nonce `n1`. -/
def oreqPlain : OAuthRequestM :=
  ⟨"POST", "http://api.example.com/oauth/request_token/",
   [("oauth_consumer_key", "ck1"), ("oauth_signature_method", "PLAINTEXT"),
    ("oauth_signature", "cs1&"), ("oauth_timestamp", "1000"),
    ("oauth_nonce", "n1")]⟩

/-- The fresh token the scenario issues. -/
def tokFresh : Token :=
  ⟨"requesttoken0", "requestsecret0", ⟨1, "ck1", "cs1"⟩, .unauthorized, none⟩

/-- The store after the scenario: nonce recorded, counter advanced. -/
def storeAfter : Store := ⟨[⟨1, "ck1", "cs1"⟩], [("ck1", "", "1000", "n1")], 1⟩

/-! ## Helper lemmas -/

/-- Appending strings appends their character lists. -/
theorem strDataAppend (a b : String) : (a ++ b).data = a.data ++ b.data := by
  cases a
  cases b
  rfl

/-- The empty pattern is a prefix of anything. -/
theorem startsWithL_nil_pat (l : List Char) : startsWithL l [] = true := by
  cases l <;> rfl

/-- A list starts with itself. -/
theorem startsWithL_self (l : List Char) : startsWithL l l = true := by
  induction l with
  | nil => rfl
  | cons c cs ih => simp [startsWithL, ih]

/-- A list starts with any of its prefixes. -/
theorem startsWithL_self_append (p rest : List Char) :
    startsWithL (p ++ rest) p = true := by
  induction p with
  | nil => simpa using startsWithL_nil_pat rest
  | cons c cs ih => simp [startsWithL, ih]

/-- The empty pattern occurs in anything. -/
theorem occursIn_nil_pat (l : List Char) : occursIn l [] = true := by
  cases l <;> rfl

/-- A prefix of a list occurs in it. -/
theorem occursIn_of_startsWith (l p : List Char)
    (h : startsWithL l p = true) : occursIn l p = true := by
  cases p with
  | nil => exact occursIn_nil_pat l
  | cons q qs =>
    cases l with
    | nil => simp [startsWithL] at h
    | cons c cs => simp [occursIn, h]

/-- Occurrence is preserved by prepending a character. -/
theorem occursIn_cons_of (c : Char) (l p : List Char)
    (h : occursIn l p = true) : occursIn (c :: l) p = true := by
  cases p with
  | nil => exact occursIn_nil_pat _
  | cons q qs => simp [occursIn, h]

/-- Occurrence is preserved by prepending a list. -/
theorem occursIn_append_right (a b p : List Char)
    (h : occursIn b p = true) : occursIn (a ++ b) p = true := by
  induction a with
  | nil => simpa using h
  | cons c cs ih => simpa using occursIn_cons_of c (cs ++ b) p ih

/-- Every list occurs in itself. -/
theorem occursIn_self (l : List Char) : occursIn l l = true := by
  cases l with
  | nil => rfl
  | cons c cs => simp [occursIn, startsWithL_self]

/-- A pair with first component `p` is in the list exactly when `p` is
bound to some value. -/
theorem keyMem_iff (l : List (String × String)) (p : String) :
    (∃ x ∈ l, x.1 = p) ↔ (∃ v, (p, v) ∈ l) := by
  constructor
  · rintro ⟨⟨a, b⟩, hm, he⟩
    subst he
    exact ⟨b, hm⟩
  · rintro ⟨v, hv⟩
    exact ⟨(p, v), hv, rfl⟩

/-! ## Claim theorems -/

/-- Claim C1, counterexample: on the concrete request whose
`Authorization` value is `"Basic"` — no space separator —
`HttpBasicAuthentication.is_authenticated` raises a `ValueError`
(the tuple unpacking of `auth_string.split(" ", 1)` fails), rather than
returning a not-authenticated result; so the method does not return a
truthy-or-falsy result on every request. -/
theorem basic_is_authenticated_raises_on_missing_space :
    HttpBasicAuthentication.is_authenticated ⟨fun _ _ => none, "API"⟩ reqNoSpace
      = .error .valueError := rfl

/-- Claim C1, amended: `HttpBasicAuthentication.is_authenticated` returns
a falsy not-authenticated result when the header is absent or its scheme
is not Basic, but it raises an exception — it does not return — when the
header value has no space separator, when the base64 payload does not
decode, or when the decoded credentials contain no colon. -/
theorem basic_is_authenticated_error_behavior :
    (∀ (f : String → String → Option DjUser) (realm : String) (req : Request),
        req.httpAuthorization = none →
        HttpBasicAuthentication.is_authenticated ⟨f, realm⟩ req = .ok (req, false)) ∧
    (∀ (f : String → String → Option DjUser) (realm : String) (req : Request)
        (s meth rest : String),
        req.httpAuthorization = some s → s ≠ "" →
        pySplitOnce s ' ' = some (meth, rest) → pyLower meth ≠ "basic" →
        HttpBasicAuthentication.is_authenticated ⟨f, realm⟩ req = .ok (req, false)) ∧
    (∀ (f : String → String → Option DjUser) (realm : String) (req : Request)
        (s : String),
        req.httpAuthorization = some s → s ≠ "" → pySplitOnce s ' ' = none →
        HttpBasicAuthentication.is_authenticated ⟨f, realm⟩ req
          = .error .valueError) ∧
    (∀ (f : String → String → Option DjUser) (realm : String) (req : Request)
        (s meth rest : String),
        req.httpAuthorization = some s → s ≠ "" →
        pySplitOnce s ' ' = some (meth, rest) → pyLower meth = "basic" →
        pyB64Decode (pyStrip rest) = none →
        HttpBasicAuthentication.is_authenticated ⟨f, realm⟩ req
          = .error .binasciiError) ∧
    (∀ (f : String → String → Option DjUser) (realm : String) (req : Request)
        (s meth rest dec : String),
        req.httpAuthorization = some s → s ≠ "" →
        pySplitOnce s ' ' = some (meth, rest) → pyLower meth = "basic" →
        pyB64Decode (pyStrip rest) = some dec → pySplitOnce dec ':' = none →
        HttpBasicAuthentication.is_authenticated ⟨f, realm⟩ req
          = .error .valueError) := by
  refine ⟨?_, ?_, ?_, ?_, ?_⟩
  · intro f realm req h1
    simp [HttpBasicAuthentication.is_authenticated, h1]
  · intro f realm req s meth rest h1 h2 h3 h4
    simp [HttpBasicAuthentication.is_authenticated, h1, h2, h3, h4]
  · intro f realm req s h1 h2 h3
    simp [HttpBasicAuthentication.is_authenticated, h1, h2, h3]
  · intro f realm req s meth rest h1 h2 h3 h4 h5
    simp [HttpBasicAuthentication.is_authenticated, h1, h2, h3, h4, h5]
  · intro f realm req s meth rest dec h1 h2 h3 h4 h5 h6
    simp [HttpBasicAuthentication.is_authenticated, h1, h2, h3, h4, h5, h6]

/-- Claim C1, witness: concrete instances of each branch of the amended
behavior — absent header and non-Basic scheme return not-authenticated;
missing space, bad base64 padding, and colon-free credentials raise. -/
theorem basic_is_authenticated_error_behavior_witness :
    HttpBasicAuthentication.is_authenticated ⟨fun _ _ => none, "API"⟩ reqNoAuth
        = .ok (reqNoAuth, false) ∧
    HttpBasicAuthentication.is_authenticated ⟨fun _ _ => none, "API"⟩ reqOtherScheme
        = .ok (reqOtherScheme, false) ∧
    HttpBasicAuthentication.is_authenticated ⟨fun _ _ => none, "API"⟩
        ⟨some "Basic", [], "POST", none, none, .missing, none⟩
        = .error .valueError ∧
    HttpBasicAuthentication.is_authenticated ⟨fun _ _ => none, "API"⟩ reqBadPad
        = .error .binasciiError ∧
    HttpBasicAuthentication.is_authenticated ⟨fun _ _ => none, "API"⟩ reqNoColon
        = .error .valueError :=
  ⟨basic_is_authenticated_error_behavior.1 _ _ reqNoAuth rfl,
   basic_is_authenticated_error_behavior.2.1 _ _ reqOtherScheme
     "Digest abc" "Digest" "abc" rfl (by decide) rfl (by decide),
   basic_is_authenticated_error_behavior.2.2.1 _ _
     ⟨some "Basic", [], "POST", none, none, .missing, none⟩ "Basic"
     rfl (by decide) rfl,
   basic_is_authenticated_error_behavior.2.2.2.1 _ _ reqBadPad
     "Basic YQ" "Basic" "YQ" rfl (by decide) rfl (by decide) rfl,
   basic_is_authenticated_error_behavior.2.2.2.2 _ _ reqNoColon
     "Basic YWJj" "Basic" "YWJj" "abc" rfl (by decide) rfl (by decide) rfl rfl⟩

/-- Claim C7: for every realm `r`, `HttpBasicAuthentication(realm=r)`'s
`challenge()` is a 401 whose `WWW-Authenticate` header is
`Basic realm="r"`; with the constructor's default realm the header is
`Basic realm="API"`. -/
theorem basic_challenge_401_realm :
    ∀ (f : String → String → Option DjUser) (r : String),
      (HttpBasicAuthentication.challenge ⟨f, r⟩).statusCode = 401 ∧
      (HttpBasicAuthentication.challenge ⟨f, r⟩).headers.lookup "WWW-Authenticate"
          = some ("Basic realm=\"" ++ r ++ "\"") ∧
      (HttpBasicAuthentication.withDefaultRealm f).challenge.headers.lookup
          "WWW-Authenticate" = some "Basic realm=\"API\"" := by
  intro f r
  refine ⟨rfl, ?_, rfl⟩
  simp [HttpBasicAuthentication.challenge, List.lookup]

/-- Claim C9: when the Basic header parses but the credential-check
function rejects the credentials, `is_authenticated` overwrites
`request.user` with `AnonymousUser()` before returning a falsy result —
failure is not side-effect-free on the request. -/
theorem basic_failed_auth_sets_anonymous
    (f : String → String → Option DjUser) (realm : String) (req : Request)
    (s meth rest dec u p : String)
    (h1 : req.httpAuthorization = some s) (h2 : s ≠ "")
    (h3 : pySplitOnce s ' ' = some (meth, rest))
    (h4 : pyLower meth = "basic")
    (h5 : pyB64Decode (pyStrip rest) = some dec)
    (h6 : pySplitOnce dec ':' = some (u, p))
    (h7 : f u p = none) :
    HttpBasicAuthentication.is_authenticated ⟨f, realm⟩ req
      = .ok ({ req with user := .anonymous }, false) := by
  simp [HttpBasicAuthentication.is_authenticated, h1, h2, h3, h4, h5, h6, h7]

/-- Claim C9, witness: base64 of `"alice:wrong"` with a rejecting check
function — the request's user is overwritten with `AnonymousUser()` and
the result is falsy. -/
theorem basic_failed_auth_sets_anonymous_witness :
    HttpBasicAuthentication.is_authenticated ⟨fun _ _ => none, "API"⟩ reqBadCreds
      = .ok ({ reqBadCreds with user := .anonymous }, false) :=
  basic_failed_auth_sets_anonymous (fun _ _ => none) "API" reqBadCreds
    "Basic YWxpY2U6d3Jvbmc=" "Basic" "YWxpY2U6d3Jvbmc=" "alice:wrong"
    "alice" "wrong" rfl (by decide) rfl (by decide) rfl rfl rfl

/-- Claim C10: `OAuthAuthentication.validate_token` never reads its
`check_timestamp` and `check_nonce` parameters — for every request and
every pair of flag values the result equals the default-flag call. -/
theorem validate_token_ignores_flags :
    ∀ (from_request : Request → Option OAuthRequestM)
      (verify : OAuthRequestM →
        PyOutcome (Option Consumer × Option Token × List (String × String)))
      (request : Request) (a b : Bool),
      OAuthAuthentication.validate_token from_request verify request a b
        = OAuthAuthentication.validate_token from_request verify request true true :=
  fun _ _ _ _ _ => rfl

/-- Claim C2: whenever token validation raises an `OAuthError`,
`OAuthAuthentication.is_authenticated` catches it — the error never
reaches the caller — and the method returns `False`, leaving the request
untouched. -/
theorem oauth_is_authenticated_catches_oauth_error
    (from_request : Request → Option OAuthRequestM)
    (verify : OAuthRequestM →
      PyOutcome (Option Consumer × Option Token × List (String × String)))
    (req : Request) (e : OAuthError)
    (herr : OAuthAuthentication.validate_token from_request verify req true true
      = .oauthError e) :
    OAuthAuthentication.is_authenticated from_request verify req
      = .ok (req, false) := by
  unfold OAuthAuthentication.is_authenticated
  rw [herr]
  simp

/-- Claim C2, witness: a structurally valid request whose verification
raises an invalid-signature `OAuthError` — `is_authenticated` returns a
not-authenticated result instead of propagating the error. -/
theorem oauth_is_authenticated_catches_oauth_error_witness :
    OAuthAuthentication.is_valid_request reqAllHeader = true ∧
    OAuthAuthentication.is_authenticated (fun _ => some oreqEx)
        (fun _ => .oauthError ⟨"Invalid signature."⟩) reqAllHeader
      = .ok (reqAllHeader, false) :=
  ⟨by decide,
   oauth_is_authenticated_catches_oauth_error (fun _ => some oreqEx)
     (fun _ => .oauthError ⟨"Invalid signature."⟩) reqAllHeader
     ⟨"Invalid signature."⟩ rfl⟩

/-- Claim C5: `is_valid_request` accepts a request exactly when all six
required parameter names occur in the `Authorization` header string, or
all six are keys of the combined GET/POST parameter set; and a request
splitting the six names across the two sources is rejected. -/
theorem is_valid_request_characterization :
    (∀ req : Request,
        OAuthAuthentication.is_valid_request req = true ↔
          ((∀ p ∈ must_have,
              occursIn (req.httpAuthorization.getD "").data p.data = true) ∨
           (∀ p ∈ must_have, ∃ v, (p, v) ∈ req.requestParams))) ∧
    OAuthAuthentication.is_valid_request reqSplitSources = false := by
  constructor
  · intro req
    unfold OAuthAuthentication.is_valid_request
    simp only [Bool.or_eq_true, List.all_eq_true, List.any_eq_true, beq_iff_eq]
    exact or_congr Iff.rfl
      (forall_congr' fun p => forall_congr' fun _ => keyMem_iff _ _)
  · decide

/-- Claim C6: when validation succeeds with a non-null consumer and
token, `is_authenticated` returns `True` and, as its effect on the
request, binds `request.user` to the token's user and sets
`request.throttle_extra` to the token's consumer id. -/
theorem oauth_is_authenticated_success_binds_user
    (from_request : Request → Option OAuthRequestM)
    (verify : OAuthRequestM →
      PyOutcome (Option Consumer × Option Token × List (String × String)))
    (req : Request) (c : Consumer) (tok : Token) (ps : List (String × String))
    (hvalid : OAuthAuthentication.is_valid_request req = true)
    (hok : OAuthAuthentication.validate_token from_request verify req true true
      = .ok (some c, some tok, ps)) :
    OAuthAuthentication.is_authenticated from_request verify req
      = .ok ({ req with
                 user := tokenUser tok
                 throttleExtra := some tok.consumer.id }, true) := by
  unfold OAuthAuthentication.is_authenticated
  rw [hok, hvalid]
  simp

/-- Claim C6, witness: a structurally valid request verified to consumer
9 and an access token of user 42 — the result is authenticated, the
request's user is the token's user and the throttle key is the consumer
id. -/
theorem oauth_is_authenticated_success_binds_user_witness :
    OAuthAuthentication.is_valid_request reqAllHeader = true ∧
    OAuthAuthentication.is_authenticated (fun _ => some oreqEx)
        (fun _ => .ok (some consumerEx, some tokAcc, [])) reqAllHeader
      = .ok ({ reqAllHeader with
                 user := tokenUser tokAcc
                 throttleExtra := some tokAcc.consumer.id }, true) :=
  ⟨by decide,
   oauth_is_authenticated_success_binds_user (fun _ => some oreqEx)
     (fun _ => .ok (some consumerEx, some tokAcc, [])) reqAllHeader
     consumerEx tokAcc [] (by decide) rfl⟩

/-- Claim C3, counterexample: two non-success responses of
`oauth_user_auth` are not 401s with a `WWW-Authenticate` header — the
POST with a session token mismatch yields the plain 200 response
`'Action not allowed.'` with no headers, and the user-denied POST yields
a 302 redirect carrying only a `Location` header. -/
theorem oauth_user_auth_non_401_failures :
    oauth_user_auth envMismatch (some oreqEx) reqMismatch
        = .ok (reqMismatch, some ⟨"Action not allowed.", 200, []⟩) ∧
    oauth_user_auth envDeny (some oreqEx) reqDeny
        = .ok ({ reqDeny with sessionOauth := some "" },
               some ⟨"", 302,
                     [("Location",
                       "http://client.example.com/cb?error=Access not granted by user.")]⟩) ∧
    (200 ≠ 401) ∧ (302 ≠ 401) ∧
    (⟨"Action not allowed.", 200, []⟩ : HttpResponse).headers.lookup
        "WWW-Authenticate" = none :=
  ⟨rfl, rfl, by decide, by decide, rfl⟩

/-- Claim C3, amended: every non-success response the three protocol
endpoints produce through the OAuth error path (`send_oauth_error`,
including the pre-built `INVALID_PARAMS_RESPONSE`) has status 401 and a
`WWW-Authenticate: OAuth realm="OAuth"` header; but the response to a
user-authorization POST with a session token mismatch is a plain 200
`'Action not allowed.'` without that header, and the response when the
user denies access is a 302 redirect to the callback, not a 401. -/
theorem oauth_error_responses_amended :
    (∀ err : OAuthError,
        (send_oauth_error err).statusCode = 401 ∧
        (send_oauth_error err).headers.lookup "WWW-Authenticate"
          = some "OAuth realm=\"OAuth\"") ∧
    INVALID_PARAMS_RESPONSE.statusCode = 401 ∧
    INVALID_PARAMS_RESPONSE.headers.lookup "WWW-Authenticate"
        = some "OAuth realm=\"OAuth\"" ∧
    oauth_user_auth envMismatch (some oreqEx) reqMismatch
        = .ok (reqMismatch, some ⟨"Action not allowed.", 200, []⟩) ∧
    oauth_user_auth envDeny (some oreqEx) reqDeny
        = .ok ({ reqDeny with sessionOauth := some "" },
               some ⟨"", 302,
                     [("Location",
                       "http://client.example.com/cb?error=Access not granted by user.")]⟩) :=
  ⟨fun _ => ⟨rfl, rfl⟩, rfl, rfl, rfl, rfl⟩

/-- Claim C4: every `OAuthError` raised by the server operation an entry
point invokes (`fetch_request_token` in `oauth_request_token` and
`oauth_user_auth`, `authorize_token` in `oauth_user_auth`,
`fetch_access_token` in `oauth_access_token`) is caught inside the entry
point and mapped to `send_oauth_error`, a 401 response whose body
contains (indeed equals) the error's message — no such error escapes as
an exception, hence none can become a 5xx. -/
theorem endpoints_map_oauth_errors_to_401 :
    (∀ (fetch : OAuthRequestM → Except OAuthError Token)
        (oreq : OAuthRequestM) (err : OAuthError),
        fetch oreq = .error err →
        oauth_request_token fetch (some oreq) = send_oauth_error err) ∧
    (∀ (fetch : OAuthRequestM → Except OAuthError Token)
        (oreq : OAuthRequestM) (err : OAuthError),
        fetch oreq = .error err →
        oauth_access_token fetch (some oreq) = send_oauth_error err) ∧
    (∀ (env : UserAuthEnv) (oreq : OAuthRequestM) (req : Request)
        (err : OAuthError),
        env.fetch oreq = .error err →
        oauth_user_auth env (some oreq) req
          = .ok (req, some (send_oauth_error err))) ∧
    (∀ (env : UserAuthEnv) (oreq : OAuthRequestM) (req : Request)
        (err : OAuthError) (token : Token) (n : Int),
        env.fetch oreq = .ok token → req.method = "POST" →
        req.sessionOauth.getD "" = token.key →
        pyInt (req.postAuthorizeAccess.getD "0") = some n → n ≠ 0 →
        env.authorize token req.user = .error err →
        oauth_user_auth env (some oreq) req
          = .ok ({ req with sessionOauth := some "" },
                 some (send_oauth_error err))) ∧
    (∀ err : OAuthError,
        (send_oauth_error err).statusCode = 401 ∧
        occursIn (send_oauth_error err).content.data err.message.data = true) := by
  refine ⟨?_, ?_, ?_, ?_, ?_⟩
  · intro fetch oreq err h
    simp [oauth_request_token, h]
  · intro fetch oreq err h
    simp [oauth_access_token, h]
  · intro env oreq req err h
    simp [oauth_user_auth, h]
  · intro env oreq req err token n hfetch hmethod hsess hint hn hauth
    simp [oauth_user_auth, hfetch, hmethod, hsess, hint, hn, hauth]
  · intro err
    exact ⟨rfl, occursIn_self _⟩

/-- Claim C4, witness: concrete error outcomes on each entry point — an
invalid-consumer error on the token endpoints and on the
user-authorization fetch, and a token-not-authorized error on the
user-authorization grant — each produce `send_oauth_error`, which is a
401 whose body carries the message. -/
theorem endpoints_map_oauth_errors_to_401_witness :
    oauth_request_token (fun _ => .error ⟨"Invalid consumer."⟩) (some oreqEx)
        = send_oauth_error ⟨"Invalid consumer."⟩ ∧
    oauth_access_token (fun _ => .error ⟨"Invalid consumer."⟩) (some oreqEx)
        = send_oauth_error ⟨"Invalid consumer."⟩ ∧
    oauth_user_auth envFetchErr (some oreqEx) reqGrant
        = .ok (reqGrant, some (send_oauth_error ⟨"Invalid consumer."⟩)) ∧
    oauth_user_auth envAuthErr (some oreqEx) reqGrant
        = .ok ({ reqGrant with sessionOauth := some "" },
               some (send_oauth_error ⟨"Token not authorized."⟩)) ∧
    (send_oauth_error ⟨"Invalid signature."⟩).statusCode = 401 ∧
    occursIn (send_oauth_error ⟨"Invalid signature."⟩).content.data
        "Invalid signature.".data = true :=
  ⟨endpoints_map_oauth_errors_to_401.1 (fun _ => .error ⟨"Invalid consumer."⟩)
     oreqEx ⟨"Invalid consumer."⟩ rfl,
   endpoints_map_oauth_errors_to_401.2.1 (fun _ => .error ⟨"Invalid consumer."⟩)
     oreqEx ⟨"Invalid consumer."⟩ rfl,
   endpoints_map_oauth_errors_to_401.2.2.1 envFetchErr oreqEx reqGrant
     ⟨"Invalid consumer."⟩ rfl,
   endpoints_map_oauth_errors_to_401.2.2.2.1 envAuthErr oreqEx reqGrant
     ⟨"Token not authorized."⟩ tokC3 1 rfl rfl rfl rfl (by decide) rfl,
   (endpoints_map_oauth_errors_to_401.2.2.2.2 ⟨"Invalid signature."⟩).1,
   (endpoints_map_oauth_errors_to_401.2.2.2.2 ⟨"Invalid signature."⟩).2⟩

/-- Claim C8: whenever `fetch_request_token` succeeds on a parseable
request — valid consumer key, PLAINTEXT signature, timestamp and nonce —
`oauth_request_token` returns a 200 response whose body is the issued
token's string form, which contains the `oauth_token` and
`oauth_token_secret` parameters. -/
theorem oauth_request_token_success_200_token_body
    (hmacSign : OAuthRequestM → String → String) (store : Store)
    (now skew : Nat) (oreq : OAuthRequestM) (token : Token) (store2 : Store)
    (h : fetch_request_token hmacSign store now skew oreq = .ok (token, store2)) :
    oauth_request_token
        (fun r => (fetch_request_token hmacSign store now skew r).map Prod.fst)
        (some oreq)
      = ⟨token.to_string, 200, []⟩ ∧
    occursIn (Token.to_string token).data "oauth_token=".data = true ∧
    occursIn (Token.to_string token).data "oauth_token_secret=".data = true := by
  have hdata : (Token.to_string token).data
      = "oauth_token=".data
          ++ ((percent_encode token.key).data
          ++ ("&oauth_token_secret=".data ++ (percent_encode token.secret).data)) := by
    simp [Token.to_string, strDataAppend, List.append_assoc]
  refine ⟨?_, ?_, ?_⟩
  · simp [oauth_request_token, h, Except.map]
  · rw [hdata]
    exact occursIn_of_startsWith _ _ (startsWithL_self_append _ _)
  · rw [hdata]
    apply occursIn_append_right
    apply occursIn_append_right
    have hamp : "&oauth_token_secret=".data = '&' :: "oauth_token_secret=".data := rfl
    rw [hamp, List.cons_append]
    exact occursIn_cons_of _ _ _
      (occursIn_of_startsWith _ _ (startsWithL_self_append _ _))

/-- Claim C8, witness: the spec's scenario — consumer `ck1` with secret
`cs1`, PLAINTEXT signature `"cs1&"`, timestamp inside the skew window,
fresh nonce `n1` — issues a fresh unauthorized token, and the endpoint
returns 200 with the token body carrying both parameters. -/
theorem oauth_request_token_success_200_token_body_witness :
    fetch_request_token (fun _ _ => "") storeEx 1000 300 oreqPlain
        = .ok (tokFresh, storeAfter) ∧
    (oauth_request_token
        (fun r => (fetch_request_token (fun _ _ => "") storeEx 1000 300 r).map Prod.fst)
        (some oreqPlain)
      = ⟨Token.to_string tokFresh, 200, []⟩ ∧
     occursIn (Token.to_string tokFresh).data "oauth_token=".data = true ∧
     occursIn (Token.to_string tokFresh).data "oauth_token_secret=".data = true) :=
  ⟨rfl,
   oauth_request_token_success_200_token_body (fun _ _ => "") storeEx 1000 300
     oreqPlain tokFresh storeAfter rfl⟩

end Piston
